import Mathlib

/-!
Verification of the attendance-math engine of the `attendly` repository
(`src/hooks/useAttendance.ts`).

The source is a small pure arithmetic module over JavaScript numbers.
We embed the arithmetic over exact rationals (`ℚ`): every input appearing
in the properties under check is an exact value (small integers, a goal
percentage), for which JavaScript `number` arithmetic coincides with
rational arithmetic, except at division by zero.  Division by zero is
reachable in the source (recovery formula at `goalPercentage = 100`), and
JavaScript then produces `Infinity`/`NaN` rather than a junk value, so we
model intermediate results with an extended-number type `JsNum` carrying
the IEEE special values, and model `/`, `Math.floor`, `Math.ceil` and the
comparisons with zero on it exactly as JavaScript evaluates them.
-/

/-- Extended number model for JavaScript arithmetic results: a finite exact
rational, positive or negative infinity, or NaN. -/
inductive JsNum where
  | fin (q : ℚ)
  | posInf
  | negInf
  | nan
deriving DecidableEq

/-- JavaScript division `a / b` of two finite numbers: finite quotient when
`b ≠ 0`; when `b = 0` (with the sign of `+0`) the result is `Infinity` for
positive `a`, `-Infinity` for negative `a`, and `NaN` for `a = 0`. -/
def jsDiv (a b : ℚ) : JsNum :=
  if b = 0 then
    if 0 < a then JsNum.posInf
    else if a < 0 then JsNum.negInf
    else JsNum.nan
  else JsNum.fin (a / b)

namespace JsNum

/-- `Math.floor`: identity on `Infinity`, `-Infinity` and `NaN`. -/
def floorJs : JsNum → JsNum
  | fin q => fin ⌊q⌋
  | posInf => posInf
  | negInf => negInf
  | nan => nan

/-- `Math.ceil`: identity on `Infinity`, `-Infinity` and `NaN`. -/
def ceilJs : JsNum → JsNum
  | fin q => fin ⌈q⌉
  | posInf => posInf
  | negInf => negInf
  | nan => nan

/-- The JavaScript comparison `x < 0` (false on `NaN`). -/
def ltZero : JsNum → Bool
  | fin q => decide (q < 0)
  | posInf => false
  | negInf => true
  | nan => false

/-- The JavaScript comparison `x > 0` (false on `NaN`). -/
def gtZero : JsNum → Bool
  | fin q => decide (0 < q)
  | posInf => true
  | negInf => false
  | nan => false

/-- The JavaScript comparison `x <= y` (false whenever either side is `NaN`). -/
def le : JsNum → JsNum → Bool
  | nan, _ => false
  | _, nan => false
  | negInf, _ => true
  | _, posInf => true
  | posInf, _ => false
  | fin _, negInf => false
  | fin a, fin b => decide (a ≤ b)

end JsNum

/-- The `stats` record assembled by the hook (`useAttendance.ts` lines 73-80). -/
structure AttendanceStats where
  present : ℚ
  absent : ℚ
  cancelled : ℚ
  total : ℚ
  percentage : ℚ
  goalPercentage : ℚ
deriving DecidableEq

/-- The full result record of the hook (`useAttendance.ts` lines 12-18). -/
structure AttendanceResult where
  stats : AttendanceStats
  bunkBuffer : JsNum
  recoveryRequired : JsNum
  isAboveGoal : Bool
  isSafe : Bool
deriving DecidableEq

/-- `useAttendance(present, absent, cancelled = 0, goalPercentage = 75)`
(`useAttendance.ts` lines 27-87).  The `useMemo` wrapper only caches the pure
computation, so the embedding is the computation itself. -/
def useAttendance (present absent : ℚ) (cancelled : ℚ := 0)
    (goalPercentage : ℚ := 75) : AttendanceResult :=
  let total := present + absent
  let goal := goalPercentage / 100
  let percentage := if 0 < total then (present / total) * 100 else 0
  let bunkBuffer :=
    if percentage ≥ goalPercentage ∧ 0 < total then
      let b := (jsDiv (present - goal * total) goal).floorJs
      if b.ltZero then JsNum.fin 0 else b
    else JsNum.fin 0
  let recoveryRequired :=
    if ¬(percentage ≥ goalPercentage) ∧ 0 < total then
      let r := (jsDiv (goal * total - present) (1 - goal)).ceilJs
      if r.ltZero then JsNum.fin 0 else r
    else JsNum.fin 0
  let isAboveGoal := decide (percentage ≥ goalPercentage)
  let isSafe := decide (percentage ≥ goalPercentage + 5)
  { stats :=
      { present := present
        absent := absent
        cancelled := cancelled
        total := total
        percentage := percentage
        goalPercentage := goalPercentage }
    bunkBuffer := bunkBuffer
    recoveryRequired := recoveryRequired
    isAboveGoal := isAboveGoal
    isSafe := isSafe }

/-- `calculateBunkBuffer(present, total, goalPercentage = 75)`
(`useAttendance.ts` lines 92-101). -/
def calculateBunkBuffer (present total : ℚ) (goalPercentage : ℚ := 75) : JsNum :=
  if total = 0 then JsNum.fin 0
  else
    let goal := goalPercentage / 100
    let buffer := (jsDiv (present - goal * total) goal).floorJs
    if buffer.gtZero then buffer else JsNum.fin 0

/-- `calculateRecovery(present, total, goalPercentage = 75)`
(`useAttendance.ts` lines 106-119). -/
def calculateRecovery (present total : ℚ) (goalPercentage : ℚ := 75) : JsNum :=
  if total = 0 then JsNum.fin 0
  else
    let goal := goalPercentage / 100
    let currentPercentage := (present / total) * 100
    if currentPercentage ≥ goalPercentage then JsNum.fin 0
    else
      let recovery := (jsDiv (goal * total - present) (1 - goal)).ceilJs
      if recovery.gtZero then recovery else JsNum.fin 0

/-- The three status badges of `getAttendanceStatus`. -/
inductive AttendanceStatus where
  | safe
  | warning
  | danger
deriving DecidableEq

/-- `getAttendanceStatus(percentage, goalPercentage = 75)`
(`useAttendance.ts` lines 124-131). -/
def getAttendanceStatus (percentage : ℚ) (goalPercentage : ℚ := 75) :
    AttendanceStatus :=
  if percentage ≥ goalPercentage + 5 then AttendanceStatus.safe
  else if percentage ≥ goalPercentage - 5 then AttendanceStatus.warning
  else AttendanceStatus.danger

example : (useAttendance 38 2 0 75).bunkBuffer = JsNum.fin 10 := by
  norm_num [useAttendance, jsDiv, JsNum.floorJs, JsNum.ltZero]
example : (useAttendance 30 10 2 75).bunkBuffer = JsNum.fin 0 := by
  norm_num [useAttendance, jsDiv, JsNum.floorJs, JsNum.ltZero]
example : (useAttendance 20 20 0 75).recoveryRequired = JsNum.fin 40 := by
  norm_num [useAttendance, jsDiv, JsNum.ceilJs, JsNum.ltZero]
example : (useAttendance 10 20 0 100).recoveryRequired = JsNum.posInf := by
  norm_num [useAttendance, jsDiv, JsNum.ceilJs, JsNum.ltZero]
example : (useAttendance 10 0 0 100).recoveryRequired = JsNum.fin 0 := by
  norm_num [useAttendance, jsDiv, JsNum.ceilJs, JsNum.ltZero]
example : (useAttendance 0 0 0 75).isSafe = false := by
  norm_num [useAttendance]
example : calculateBunkBuffer 38 40 75 = JsNum.fin 10 := by
  norm_num [calculateBunkBuffer, jsDiv, JsNum.floorJs, JsNum.gtZero]
example : calculateRecovery 20 40 75 = JsNum.fin 40 := by
  norm_num [calculateRecovery, jsDiv, JsNum.ceilJs, JsNum.gtZero]
example : getAttendanceStatus 80 75 = AttendanceStatus.safe := by
  norm_num [getAttendanceStatus]
example : getAttendanceStatus 75 75 = AttendanceStatus.warning := by
  norm_num [getAttendanceStatus]
example : getAttendanceStatus 69 75 = AttendanceStatus.danger := by
  norm_num [getAttendanceStatus]

/-! Characterization lemmas: one per field of `useAttendance`, reading the
branch structure of the source off the definition. -/

lemma useAttendance_stats (p a c g : ℚ) :
    (useAttendance p a c g).stats =
      { present := p, absent := a, cancelled := c, total := p + a,
        percentage := if 0 < p + a then p / (p + a) * 100 else 0,
        goalPercentage := g } := rfl

lemma useAttendance_percentage_pos (p a c g : ℚ) (ht : 0 < p + a) :
    (useAttendance p a c g).stats.percentage = p / (p + a) * 100 := by
  rw [useAttendance_stats]
  exact if_pos ht

lemma useAttendance_isAboveGoal (p a c g : ℚ) :
    (useAttendance p a c g).isAboveGoal =
      decide ((if 0 < p + a then p / (p + a) * 100 else 0) ≥ g) := rfl

lemma useAttendance_isSafe (p a c g : ℚ) :
    (useAttendance p a c g).isSafe =
      decide ((if 0 < p + a then p / (p + a) * 100 else 0) ≥ g + 5) := rfl

lemma useAttendance_bunkBuffer_above (p a c g : ℚ) (ht : 0 < p + a)
    (h : p / (p + a) * 100 ≥ g) :
    (useAttendance p a c g).bunkBuffer =
      if ((jsDiv (p - g / 100 * (p + a)) (g / 100)).floorJs).ltZero then JsNum.fin 0
      else (jsDiv (p - g / 100 * (p + a)) (g / 100)).floorJs := by
  show (if _ ∧ _ then _ else _) = _
  rw [if_pos]
  exact ⟨by rwa [if_pos ht], ht⟩

lemma useAttendance_bunkBuffer_below (p a c g : ℚ)
    (h : ¬((if 0 < p + a then p / (p + a) * 100 else 0) ≥ g)) :
    (useAttendance p a c g).bunkBuffer = JsNum.fin 0 := by
  show (if _ ∧ _ then _ else _) = _
  rw [if_neg]
  exact fun hc => h hc.1

lemma useAttendance_bunkBuffer_noTotal (p a c g : ℚ) (ht : ¬(0 < p + a)) :
    (useAttendance p a c g).bunkBuffer = JsNum.fin 0 := by
  show (if _ ∧ _ then _ else _) = _
  rw [if_neg]
  exact fun hc => ht hc.2

lemma useAttendance_recovery_below (p a c g : ℚ) (ht : 0 < p + a)
    (h : ¬(p / (p + a) * 100 ≥ g)) :
    (useAttendance p a c g).recoveryRequired =
      if ((jsDiv (g / 100 * (p + a) - p) (1 - g / 100)).ceilJs).ltZero then JsNum.fin 0
      else (jsDiv (g / 100 * (p + a) - p) (1 - g / 100)).ceilJs := by
  show (if _ ∧ _ then _ else _) = _
  rw [if_pos]
  exact ⟨by rwa [if_pos ht], ht⟩

lemma useAttendance_recovery_above (p a c g : ℚ)
    (h : (if 0 < p + a then p / (p + a) * 100 else 0) ≥ g) :
    (useAttendance p a c g).recoveryRequired = JsNum.fin 0 := by
  show (if _ ∧ _ then _ else _) = _
  rw [if_neg]
  exact fun hc => hc.1 h

lemma useAttendance_recovery_noTotal (p a c g : ℚ) (ht : ¬(0 < p + a)) :
    (useAttendance p a c g).recoveryRequired = JsNum.fin 0 := by
  show (if _ ∧ _ then _ else _) = _
  rw [if_neg]
  exact fun hc => ht hc.2

/-! Arithmetic helpers: translating the percentage comparison into a linear
comparison, and evaluating `jsDiv` in its two regimes. -/

lemma ratio_ge_iff (p t g : ℚ) (ht : 0 < t) :
    g ≤ p / t * 100 ↔ g / 100 * t ≤ p := by
  rw [div_mul_eq_mul_div, le_div_iff₀ ht, div_mul_eq_mul_div,
    div_le_iff₀ (show (0:ℚ) < 100 by norm_num)]

lemma ratio_lt_iff (p t g : ℚ) (ht : 0 < t) :
    p / t * 100 < g ↔ p < g / 100 * t := by
  rw [lt_iff_not_le, lt_iff_not_le]
  exact not_congr (ratio_ge_iff p t g ht)

lemma jsDiv_of_ne (a b : ℚ) (hb : b ≠ 0) : jsDiv a b = JsNum.fin (a / b) :=
  if_neg hb

lemma jsDiv_pos_zero (a : ℚ) (ha : 0 < a) : jsDiv a 0 = JsNum.posInf := by
  rw [jsDiv, if_pos rfl, if_pos ha]

/-- Value of the hook's bunk buffer in the at-or-above-goal branch: the floor
of the spec formula, which is nonnegative there (so the clamp is a no-op). -/
lemma bunk_val_above (p a c g : ℚ) (ht : 0 < p + a) (hg0 : 0 < g)
    (habove : g / 100 * (p + a) ≤ p) :
    (useAttendance p a c g).bunkBuffer =
      JsNum.fin ((⌊(p - g / 100 * (p + a)) / (g / 100)⌋ : ℤ) : ℚ) ∧
    0 ≤ ⌊(p - g / 100 * (p + a)) / (g / 100)⌋ := by
  have hG : 0 < g / 100 := by positivity
  have hq : 0 ≤ (p - g / 100 * (p + a)) / (g / 100) :=
    div_nonneg (sub_nonneg.2 habove) hG.le
  have hb : 0 ≤ ⌊(p - g / 100 * (p + a)) / (g / 100)⌋ :=
    Int.le_floor.2 (by exact_mod_cast hq)
  refine ⟨?_, hb⟩
  rw [useAttendance_bunkBuffer_above p a c g ht
      ((ratio_ge_iff p (p + a) g ht).2 habove),
    jsDiv_of_ne _ _ hG.ne']
  simp only [JsNum.floorJs, JsNum.ltZero]
  rw [if_neg]
  simp only [decide_eq_true_eq, not_lt]
  exact_mod_cast hb

/-- Value of the hook's recovery requirement in the below-goal branch for a
goal strictly under 100: the ceiling of the spec formula, which is at least
1 there (so the clamp is a no-op). -/
lemma recovery_val_below (p a c g : ℚ) (ht : 0 < p + a) (hg1 : g < 100)
    (hbelow : p < g / 100 * (p + a)) :
    (useAttendance p a c g).recoveryRequired =
      JsNum.fin ((⌈(g / 100 * (p + a) - p) / (1 - g / 100)⌉ : ℤ) : ℚ) ∧
    1 ≤ ⌈(g / 100 * (p + a) - p) / (1 - g / 100)⌉ := by
  have hden : 0 < 1 - g / 100 := by
    have h := (div_lt_one (show (0:ℚ) < 100 by norm_num)).2 hg1
    linarith
  have hqpos : 0 < (g / 100 * (p + a) - p) / (1 - g / 100) :=
    div_pos (sub_pos.2 hbelow) hden
  have hr : 1 ≤ ⌈(g / 100 * (p + a) - p) / (1 - g / 100)⌉ := by
    have h0 : 0 < ⌈(g / 100 * (p + a) - p) / (1 - g / 100)⌉ := Int.ceil_pos.2 hqpos
    omega
  refine ⟨?_, hr⟩
  have hb : ¬(p / (p + a) * 100 ≥ g) := by
    rw [ge_iff_le, ratio_ge_iff p (p + a) g ht]
    exact not_le.2 hbelow
  rw [useAttendance_recovery_below p a c g ht hb, jsDiv_of_ne _ _ hden.ne']
  simp only [JsNum.ceilJs, JsNum.ltZero]
  rw [if_neg]
  simp only [decide_eq_true_eq, not_lt]
  have : (1:ℤ) ≤ ⌈(g / 100 * (p + a) - p) / (1 - g / 100)⌉ := hr
  exact_mod_cast le_trans zero_le_one this

/-- Value of the hook's recovery requirement at a 100% goal with at least one
absence: the division by `1 - goal = 0` is reached and yields `Infinity`. -/
lemma recovery_val_goal100 (p a c : ℚ) (ht : 0 < p + a) (hlt : p < p + a) :
    (useAttendance p a c 100).recoveryRequired = JsNum.posInf := by
  have ha : 0 < a := by linarith
  have hb : ¬(p / (p + a) * 100 ≥ 100) := by
    rw [ge_iff_le, ratio_ge_iff p (p + a) 100 ht]
    push_neg
    linarith [hlt]
  rw [useAttendance_recovery_below p a c 100 ht hb,
    show (100:ℚ) / 100 * (p + a) - p = a by ring,
    show (1:ℚ) - 100 / 100 = 0 by norm_num,
    jsDiv_pos_zero a ha]
  simp only [JsNum.ceilJs, JsNum.ltZero, Bool.false_eq_true, if_false]

/-- C1: bunk-buffer maximality.  At or above goal (with a positive total and a
goal in `(0, 100]`), the hook's `bunkBuffer` is exactly
`floor((present - (goalPercentage/100)*total) / (goalPercentage/100))`, is
nonnegative, and is the largest integer `x ≥ 0` with
`present / (total + x) ≥ goalPercentage / 100`. -/
theorem bunkBuffer_formula_and_maximal
    (present absent cancelled goalPercentage : ℚ)
    (hp : 0 ≤ present) (ha : 0 ≤ absent) (ht : 0 < present + absent)
    (hg0 : 0 < goalPercentage) (hg1 : goalPercentage ≤ 100)
    (habove : present / (present + absent) * 100 ≥ goalPercentage) :
    (useAttendance present absent cancelled goalPercentage).bunkBuffer =
      JsNum.fin ((⌊(present - goalPercentage / 100 * (present + absent)) /
        (goalPercentage / 100)⌋ : ℤ) : ℚ) ∧
    0 ≤ ⌊(present - goalPercentage / 100 * (present + absent)) /
        (goalPercentage / 100)⌋ ∧
    goalPercentage / 100 ≤ present / ((present + absent) +
      ((⌊(present - goalPercentage / 100 * (present + absent)) /
        (goalPercentage / 100)⌋ : ℤ) : ℚ)) ∧
    ∀ x : ℤ, 0 ≤ x →
      goalPercentage / 100 ≤ present / ((present + absent) + (x : ℚ)) →
      x ≤ ⌊(present - goalPercentage / 100 * (present + absent)) /
        (goalPercentage / 100)⌋ := by
  have hG : 0 < goalPercentage / 100 := by positivity
  have hPT : goalPercentage / 100 * (present + absent) ≤ present :=
    (ratio_ge_iff present (present + absent) goalPercentage ht).1 habove
  obtain ⟨hval, hb0⟩ :=
    bunk_val_above present absent cancelled goalPercentage ht hg0 hPT
  have hbQ : (0:ℚ) ≤ ((⌊(present - goalPercentage / 100 * (present + absent)) /
      (goalPercentage / 100)⌋ : ℤ) : ℚ) := by exact_mod_cast hb0
  refine ⟨hval, hb0, ?_, ?_⟩
  · have htb : 0 < (present + absent) +
        ((⌊(present - goalPercentage / 100 * (present + absent)) /
          (goalPercentage / 100)⌋ : ℤ) : ℚ) := by linarith
    rw [le_div_iff₀ htb]
    have hfloor := Int.floor_le ((present - goalPercentage / 100 *
      (present + absent)) / (goalPercentage / 100))
    have h2 := (le_div_iff₀ hG).1 hfloor
    nlinarith
  · intro x hx hle
    have hxQ : (0:ℚ) ≤ (x : ℚ) := by exact_mod_cast hx
    have htx : 0 < (present + absent) + (x : ℚ) := by linarith
    have h3 := (le_div_iff₀ htx).1 hle
    refine Int.le_floor.2 ?_
    rw [le_div_iff₀ hG]
    nlinarith

/-- C1 witness: at `present = 38`, `absent = 2`, `goal = 75` the buffer is
10, and 10 is the largest admissible number of additional absences. -/
theorem bunkBuffer_formula_and_maximal_witness :
    (useAttendance 38 2 0 75).bunkBuffer = JsNum.fin 10 ∧
    (75:ℚ) / 100 ≤ 38 / (40 + 10) ∧
    ∀ x : ℤ, 0 ≤ x → (75:ℚ) / 100 ≤ 38 / (40 + (x : ℚ)) → x ≤ 10 := by
  obtain ⟨h1, -, -, h4⟩ := bunkBuffer_formula_and_maximal 38 2 0 75
    (by norm_num) (by norm_num) (by norm_num) (by norm_num) (by norm_num)
    (by norm_num)
  have e : ⌊((38:ℚ) - 75 / 100 * (38 + 2)) / ((75:ℚ) / 100)⌋ = 10 := by
    norm_num
  rw [e] at h1 h4
  refine ⟨by rw [h1]; norm_num, by norm_num, ?_⟩
  intro x hx hle
  exact h4 x hx (by rw [show ((38:ℚ) + 2) = 40 from by norm_num]; exact hle)

/-- C2: recovery round-trip tightness.  Strictly below a goal in `(0, 100)`,
the hook's `recoveryRequired` is the ceiling of the spec formula; attending
that many more classes brings the percentage to at least the goal, and one
fewer still leaves it strictly below. -/
theorem recoveryRequired_tight_minimal
    (present absent cancelled goalPercentage : ℚ)
    (hp : 0 ≤ present) (ha : 0 ≤ absent) (ht : 0 < present + absent)
    (hg0 : 0 < goalPercentage) (hg1 : goalPercentage < 100)
    (hbelow : present / (present + absent) * 100 < goalPercentage) :
    (useAttendance present absent cancelled goalPercentage).recoveryRequired =
      JsNum.fin ((⌈(goalPercentage / 100 * (present + absent) - present) /
        (1 - goalPercentage / 100)⌉ : ℤ) : ℚ) ∧
    (present + ((⌈(goalPercentage / 100 * (present + absent) - present) /
        (1 - goalPercentage / 100)⌉ : ℤ) : ℚ)) /
      ((present + absent) + ((⌈(goalPercentage / 100 * (present + absent) -
        present) / (1 - goalPercentage / 100)⌉ : ℤ) : ℚ)) * 100 ≥
      goalPercentage ∧
    (present + (((⌈(goalPercentage / 100 * (present + absent) - present) /
        (1 - goalPercentage / 100)⌉ : ℤ) : ℚ) - 1)) /
      ((present + absent) + (((⌈(goalPercentage / 100 * (present + absent) -
        present) / (1 - goalPercentage / 100)⌉ : ℤ) : ℚ) - 1)) * 100 <
      goalPercentage := by
  have hbelow' : present < goalPercentage / 100 * (present + absent) :=
    (ratio_lt_iff present (present + absent) goalPercentage ht).1 hbelow
  obtain ⟨hval, hr1⟩ := recovery_val_below present absent cancelled
    goalPercentage ht hg1 hbelow'
  have hden : 0 < 1 - goalPercentage / 100 := by
    have h := (div_lt_one (show (0:ℚ) < 100 by norm_num)).2 hg1
    linarith
  have hrQ : (1:ℚ) ≤ ((⌈(goalPercentage / 100 * (present + absent) - present) /
      (1 - goalPercentage / 100)⌉ : ℤ) : ℚ) := by exact_mod_cast hr1
  refine ⟨hval, ?_, ?_⟩
  · have htr : 0 < (present + absent) +
        ((⌈(goalPercentage / 100 * (present + absent) - present) /
          (1 - goalPercentage / 100)⌉ : ℤ) : ℚ) := by linarith
    rw [ge_iff_le, ratio_ge_iff _ _ _ htr]
    have hceil := Int.le_ceil ((goalPercentage / 100 * (present + absent) -
      present) / (1 - goalPercentage / 100))
    have h2 := (div_le_iff₀ hden).1 hceil
    nlinarith
  · have htr : 0 < (present + absent) +
        (((⌈(goalPercentage / 100 * (present + absent) - present) /
          (1 - goalPercentage / 100)⌉ : ℤ) : ℚ) - 1) := by linarith
    rw [ratio_lt_iff _ _ _ htr]
    have hceil := Int.ceil_lt_add_one ((goalPercentage / 100 *
      (present + absent) - present) / (1 - goalPercentage / 100))
    have h2 : (((⌈(goalPercentage / 100 * (present + absent) - present) /
        (1 - goalPercentage / 100)⌉ : ℤ) : ℚ) - 1) * (1 - goalPercentage / 100)
        < goalPercentage / 100 * (present + absent) - present := by
      rw [← lt_div_iff₀ hden]
      linarith
    nlinarith

/-- C2 witness: spec scenario C, `present = 20`, `absent = 20`, `goal = 75`:
40 recovery classes reach the goal exactly, 39 do not. -/
theorem recoveryRequired_tight_minimal_witness :
    (useAttendance 20 20 0 75).recoveryRequired = JsNum.fin 40 ∧
    ((20:ℚ) + 40) / (40 + 40) * 100 ≥ 75 ∧
    ((20:ℚ) + 39) / (40 + 39) * 100 < 75 := by
  obtain ⟨h1, -, -⟩ := recoveryRequired_tight_minimal 20 20 0 75
    (by norm_num) (by norm_num) (by norm_num) (by norm_num) (by norm_num)
    (by norm_num)
  have e : ⌈((75:ℚ) / 100 * (20 + 20) - 20) / (1 - (75:ℚ) / 100)⌉ = 40 := by
    norm_num
  rw [e] at h1
  exact ⟨by rw [h1]; norm_num, by norm_num, by norm_num⟩

/-- C3: at `goalPercentage = 100` the recovery computation returns the
`Infinity` sentinel whenever any absence exists (`present < total`), and 0
when `present = total`. -/
theorem recovery_goal100_sentinel (present absent cancelled : ℚ)
    (hp : 0 ≤ present) (ha : 0 ≤ absent) (ht : 0 < present + absent) :
    (present < present + absent →
      (useAttendance present absent cancelled 100).recoveryRequired =
        JsNum.posInf) ∧
    (present = present + absent →
      (useAttendance present absent cancelled 100).recoveryRequired =
        JsNum.fin 0) := by
  constructor
  · exact fun hlt => recovery_val_goal100 present absent cancelled ht hlt
  · intro heq
    apply useAttendance_recovery_above
    have hp0 : (0:ℚ) < present := heq ▸ ht
    rw [if_pos ht, ← heq, div_self hp0.ne']
    norm_num

lemma gtZero_fin (q : ℚ) : (JsNum.fin q).gtZero = decide (0 < q) := rfl

/-- The standalone helper `calculateBunkBuffer`, fed the hook's `total`,
returns exactly the hook's `bunkBuffer` field. -/
lemma calculateBunkBuffer_eq_hook (p a c g : ℚ) (hp : 0 ≤ p) (ha : 0 ≤ a)
    (hg0 : 0 < g) :
    calculateBunkBuffer p (p + a) g = (useAttendance p a c g).bunkBuffer := by
  have hG : 0 < g / 100 := by positivity
  rcases eq_or_lt_of_le (add_nonneg hp ha) with h0 | ht
  · rw [useAttendance_bunkBuffer_noTotal p a c g (by rw [← h0]; exact lt_irrefl 0),
      calculateBunkBuffer, if_pos h0.symm]
  · rw [calculateBunkBuffer, if_neg ht.ne']
    show (if ((jsDiv (p - g / 100 * (p + a)) (g / 100)).floorJs).gtZero = true
        then (jsDiv (p - g / 100 * (p + a)) (g / 100)).floorJs
        else JsNum.fin 0) = (useAttendance p a c g).bunkBuffer
    rw [jsDiv_of_ne _ _ hG.ne']
    by_cases hab : g / 100 * (p + a) ≤ p
    · obtain ⟨hval, hb0⟩ := bunk_val_above p a c g ht hg0 hab
      rw [hval]
      simp only [JsNum.floorJs, gtZero_fin]
      rcases lt_or_eq_of_le hb0 with hb | hb
      · rw [if_pos (decide_eq_true (show (0:ℚ) <
          ((⌊(p - g / 100 * (p + a)) / (g / 100)⌋ : ℤ) : ℚ) by exact_mod_cast hb))]
      · rw [if_neg, ← hb]
        · norm_num
        · rw [decide_eq_false]
          · exact Bool.false_ne_true
          · rw [← hb]
            norm_num
    · rw [useAttendance_bunkBuffer_below p a c g (by
        rw [if_pos ht, ge_iff_le, ratio_ge_iff p (p + a) g ht]; exact hab)]
      have hq : (p - g / 100 * (p + a)) / (g / 100) < 0 :=
        div_neg_of_neg_of_pos (by linarith [not_le.1 hab]) hG
      have hb : ⌊(p - g / 100 * (p + a)) / (g / 100)⌋ < 0 :=
        Int.floor_lt.2 (by exact_mod_cast hq)
      simp only [JsNum.floorJs, gtZero_fin]
      rw [if_neg]
      rw [decide_eq_false]
      · exact Bool.false_ne_true
      · rw [not_lt]
        exact_mod_cast hb.le

/-- The standalone helper `calculateRecovery`, fed the hook's `total`,
returns exactly the hook's `recoveryRequired` field. -/
lemma calculateRecovery_eq_hook (p a c g : ℚ) (hp : 0 ≤ p) (ha : 0 ≤ a)
    (hg0 : 0 < g) (hg1 : g ≤ 100) :
    calculateRecovery p (p + a) g = (useAttendance p a c g).recoveryRequired := by
  rcases eq_or_lt_of_le (add_nonneg hp ha) with h0 | ht
  · rw [useAttendance_recovery_noTotal p a c g (by rw [← h0]; exact lt_irrefl 0),
      calculateRecovery, if_pos h0.symm]
  · rw [calculateRecovery, if_neg ht.ne']
    by_cases hab : p / (p + a) * 100 ≥ g
    · rw [if_pos hab,
        useAttendance_recovery_above p a c g (by rw [if_pos ht]; exact hab)]
    · rw [if_neg hab]
      have hbelow' : p < g / 100 * (p + a) :=
        (ratio_lt_iff p (p + a) g ht).1 (not_le.1 hab)
      rcases lt_or_eq_of_le hg1 with hlt | h100
      · obtain ⟨hval, hr1⟩ := recovery_val_below p a c g ht hlt hbelow'
        have hden : 0 < 1 - g / 100 := by
          have h := (div_lt_one (show (0:ℚ) < 100 by norm_num)).2 hlt
          linarith
        rw [hval]
        show (if ((jsDiv (g / 100 * (p + a) - p) (1 - g / 100)).ceilJs).gtZero = true
            then (jsDiv (g / 100 * (p + a) - p) (1 - g / 100)).ceilJs
            else JsNum.fin 0) =
          JsNum.fin ((⌈(g / 100 * (p + a) - p) / (1 - g / 100)⌉ : ℤ) : ℚ)
        rw [jsDiv_of_ne _ _ hden.ne']
        simp only [JsNum.ceilJs, gtZero_fin]
        rw [if_pos (decide_eq_true (show (0:ℚ) <
          ((⌈(g / 100 * (p + a) - p) / (1 - g / 100)⌉ : ℤ) : ℚ) by
            exact_mod_cast lt_of_lt_of_le Int.zero_lt_one hr1))]
      · subst h100
        have hlt2 : p < p + a := by
          have he : (100:ℚ) / 100 * (p + a) = p + a := by norm_num
          rwa [he] at hbelow'
        rw [recovery_val_goal100 p a c ht hlt2,
          show (100:ℚ) / 100 * (p + a) - p = a by ring,
          show (1:ℚ) - 100 / 100 = 0 by norm_num,
          jsDiv_pos_zero a (by linarith)]
        rfl

/-- C4: projection equivalence.  The standalone `calculateBunkBuffer` and
`calculateRecovery`, called with `total = present + absent`, agree with the
`bunkBuffer` and `recoveryRequired` fields of the hook, despite
`calculateBunkBuffer` omitting the explicit `isAboveGoal` guard. -/
theorem calculate_projections_agree
    (present absent cancelled goalPercentage : ℚ)
    (hp : 0 ≤ present) (ha : 0 ≤ absent) (hc : 0 ≤ cancelled)
    (hg0 : 0 < goalPercentage) (hg1 : goalPercentage ≤ 100) :
    calculateBunkBuffer present (present + absent) goalPercentage =
      (useAttendance present absent cancelled goalPercentage).bunkBuffer ∧
    calculateRecovery present (present + absent) goalPercentage =
      (useAttendance present absent cancelled goalPercentage).recoveryRequired :=
  ⟨calculateBunkBuffer_eq_hook present absent cancelled goalPercentage hp ha hg0,
   calculateRecovery_eq_hook present absent cancelled goalPercentage hp ha hg0 hg1⟩

/-- C4 witness: the projections agree at `present = 20`, `absent = 20`,
`goal = 75` (a below-goal state exercising both fields). -/
theorem calculate_projections_agree_witness :
    calculateBunkBuffer 20 (20 + 20) 75 = (useAttendance 20 20 0 75).bunkBuffer ∧
    calculateRecovery 20 (20 + 20) 75 =
      (useAttendance 20 20 0 75).recoveryRequired :=
  calculate_projections_agree 20 20 0 75 (by norm_num) (by norm_num)
    (by norm_num) (by norm_num) (by norm_num)

lemma jsle_fin_fin (q r : ℚ) :
    JsNum.le (JsNum.fin q) (JsNum.fin r) = decide (q ≤ r) := rfl

lemma jsle_fin_posInf (q : ℚ) :
    JsNum.le (JsNum.fin q) JsNum.posInf = true := rfl

lemma jsle_posInf_posInf : JsNum.le JsNum.posInf JsNum.posInf = true := rfl

/-- The hook's `bunkBuffer` is never below 0 (for a positive goal). -/
lemma useAttendance_bunk_nonneg (p a c g : ℚ) (hg0 : 0 < g) :
    JsNum.le (JsNum.fin 0) (useAttendance p a c g).bunkBuffer = true := by
  by_cases ht : 0 < p + a
  · by_cases hab : g / 100 * (p + a) ≤ p
    · obtain ⟨hval, hb0⟩ := bunk_val_above p a c g ht hg0 hab
      rw [hval, jsle_fin_fin]
      exact decide_eq_true (by exact_mod_cast hb0)
    · rw [useAttendance_bunkBuffer_below p a c g (by
        rw [if_pos ht, ge_iff_le, ratio_ge_iff p (p + a) g ht]; exact hab),
        jsle_fin_fin]
      exact decide_eq_true le_rfl
  · rw [useAttendance_bunkBuffer_noTotal p a c g ht, jsle_fin_fin]
    exact decide_eq_true le_rfl

/-- The hook's `recoveryRequired` is never below 0 (for a goal in
`(0, 100]`). -/
lemma useAttendance_recovery_nonneg (p a c g : ℚ) (hg0 : 0 < g)
    (hg1 : g ≤ 100) :
    JsNum.le (JsNum.fin 0) (useAttendance p a c g).recoveryRequired = true := by
  by_cases ht : 0 < p + a
  · by_cases hab : p / (p + a) * 100 ≥ g
    · rw [useAttendance_recovery_above p a c g (by rw [if_pos ht]; exact hab),
        jsle_fin_fin]
      exact decide_eq_true le_rfl
    · have hbelow' : p < g / 100 * (p + a) :=
        (ratio_lt_iff p (p + a) g ht).1 (not_le.1 hab)
      rcases lt_or_eq_of_le hg1 with hlt | h100
      · obtain ⟨hval, hr1⟩ := recovery_val_below p a c g ht hlt hbelow'
        rw [hval, jsle_fin_fin]
        exact decide_eq_true (le_trans zero_le_one (by exact_mod_cast hr1))
      · subst h100
        have hlt2 : p < p + a := by
          have he : (100:ℚ) / 100 * (p + a) = p + a := by norm_num
          rwa [he] at hbelow'
        rw [recovery_val_goal100 p a c ht hlt2, jsle_fin_posInf]
  · rw [useAttendance_recovery_noTotal p a c g ht, jsle_fin_fin]
    exact decide_eq_true le_rfl

/-- C6: non-negativity floor invariant.  For valid inputs, the bunk buffer
and recovery requirement of the hook and of both standalone helpers are
at least 0 (under the JavaScript `<=` comparison). -/
theorem buffers_nonneg (present absent cancelled goalPercentage : ℚ)
    (hp : 0 ≤ present) (ha : 0 ≤ absent) (hc : 0 ≤ cancelled)
    (hg0 : 0 < goalPercentage) (hg1 : goalPercentage ≤ 100) :
    JsNum.le (JsNum.fin 0)
      (useAttendance present absent cancelled goalPercentage).bunkBuffer = true ∧
    JsNum.le (JsNum.fin 0)
      (useAttendance present absent cancelled goalPercentage).recoveryRequired
        = true ∧
    JsNum.le (JsNum.fin 0)
      (calculateBunkBuffer present (present + absent) goalPercentage) = true ∧
    JsNum.le (JsNum.fin 0)
      (calculateRecovery present (present + absent) goalPercentage) = true := by
  refine ⟨useAttendance_bunk_nonneg _ _ cancelled _ hg0,
    useAttendance_recovery_nonneg _ _ cancelled _ hg0 hg1, ?_, ?_⟩
  · rw [calculateBunkBuffer_eq_hook present absent cancelled goalPercentage
      hp ha hg0]
    exact useAttendance_bunk_nonneg _ _ cancelled _ hg0
  · rw [calculateRecovery_eq_hook present absent cancelled goalPercentage
      hp ha hg0 hg1]
    exact useAttendance_recovery_nonneg _ _ cancelled _ hg0 hg1

/-- C6 witness at `present = 38`, `absent = 2`, `cancelled = 0`,
`goal = 75`. -/
theorem buffers_nonneg_witness :
    JsNum.le (JsNum.fin 0) (useAttendance 38 2 0 75).bunkBuffer = true ∧
    JsNum.le (JsNum.fin 0) (useAttendance 38 2 0 75).recoveryRequired = true ∧
    JsNum.le (JsNum.fin 0) (calculateBunkBuffer 38 (38 + 2) 75) = true ∧
    JsNum.le (JsNum.fin 0) (calculateRecovery 38 (38 + 2) 75) = true :=
  buffers_nonneg 38 2 0 75 (by norm_num) (by norm_num) (by norm_num)
    (by norm_num) (by norm_num)

/-- The percentage formula (with the `total > 0` guard) is monotone in
`present`. -/
lemma pct_mono (p P a : ℚ) (hp : 0 ≤ p) (hpp : p ≤ P) (ha : 0 ≤ a) :
    (if 0 < p + a then p / (p + a) * 100 else 0) ≤
      (if 0 < P + a then P / (P + a) * 100 else 0) := by
  by_cases ht : 0 < p + a
  · have hP : 0 < P + a := by linarith
    rw [if_pos ht, if_pos hP]
    have h1 : p / (p + a) ≤ P / (P + a) := by
      rw [div_le_div_iff₀ ht hP]
      nlinarith [mul_nonneg (sub_nonneg.2 hpp) ha]
    linarith
  · rw [if_neg ht]
    by_cases hP : 0 < P + a
    · rw [if_pos hP]
      have h0 : 0 ≤ P / (P + a) := div_nonneg (by linarith) hP.le
      linarith
    · rw [if_neg hP]

lemma useAttendance_percentage (p a c g : ℚ) :
    (useAttendance p a c g).stats.percentage =
      if 0 < p + a then p / (p + a) * 100 else 0 := rfl

/-- C5: monotonicity in `present`.  With `absent`, `cancelled` and the goal
fixed, increasing `present` never decreases the percentage or the bunk
buffer, and never increases the recovery requirement. -/
theorem useAttendance_monotone_present
    (present1 present2 absent cancelled goalPercentage : ℚ)
    (hp : 0 ≤ present1) (hpp : present1 < present2) (ha : 0 ≤ absent)
    (hc : 0 ≤ cancelled) (hg0 : 0 < goalPercentage)
    (hg1 : goalPercentage ≤ 100) :
    (useAttendance present1 absent cancelled goalPercentage).stats.percentage ≤
      (useAttendance present2 absent cancelled goalPercentage).stats.percentage ∧
    JsNum.le (useAttendance present1 absent cancelled goalPercentage).bunkBuffer
      (useAttendance present2 absent cancelled goalPercentage).bunkBuffer
        = true ∧
    JsNum.le
      (useAttendance present2 absent cancelled goalPercentage).recoveryRequired
      (useAttendance present1 absent cancelled goalPercentage).recoveryRequired
        = true := by
  have hpct := pct_mono present1 present2 absent hp hpp.le ha
  have hP2 : 0 < present2 + absent := by linarith
  have hGle : goalPercentage / 100 ≤ 1 := by
    rw [div_le_one (show (0:ℚ) < 100 by norm_num)]
    exact hg1
  refine ⟨?_, ?_, ?_⟩
  · rw [useAttendance_percentage, useAttendance_percentage]
    exact hpct
  · by_cases h1 : (if 0 < present1 + absent then
        present1 / (present1 + absent) * 100 else 0) ≥ goalPercentage
    · have ht : 0 < present1 + absent := by
        by_contra hnt
        rw [if_neg hnt] at h1
        linarith
      rw [if_pos ht] at h1
      have hpct2 : present1 / (present1 + absent) * 100 ≤
          present2 / (present2 + absent) * 100 := by
        have h := hpct
        rwa [if_pos ht, if_pos hP2] at h
      have hab1 : goalPercentage / 100 * (present1 + absent) ≤ present1 :=
        (ratio_ge_iff _ _ _ ht).1 h1
      have hab2 : goalPercentage / 100 * (present2 + absent) ≤ present2 :=
        (ratio_ge_iff _ _ _ hP2).1 (le_trans h1 hpct2)
      obtain ⟨hval1, hb1⟩ :=
        bunk_val_above present1 absent cancelled goalPercentage ht hg0 hab1
      obtain ⟨hval2, hb2⟩ :=
        bunk_val_above present2 absent cancelled goalPercentage hP2 hg0 hab2
      rw [hval1, hval2, jsle_fin_fin]
      refine decide_eq_true ?_
      have hG : 0 < goalPercentage / 100 := by positivity
      have hmono : ⌊(present1 - goalPercentage / 100 * (present1 + absent)) /
          (goalPercentage / 100)⌋ ≤
          ⌊(present2 - goalPercentage / 100 * (present2 + absent)) /
          (goalPercentage / 100)⌋ := by
        apply Int.floor_le_floor
        rw [div_le_div_iff_of_pos_right hG]
        nlinarith [mul_le_mul_of_nonneg_right hpp.le (sub_nonneg.2 hGle)]
      exact_mod_cast hmono
    · rw [useAttendance_bunkBuffer_below present1 absent cancelled
        goalPercentage h1]
      by_cases h2 : (if 0 < present2 + absent then
          present2 / (present2 + absent) * 100 else 0) ≥ goalPercentage
      · rw [if_pos hP2] at h2
        obtain ⟨hval2, hb2⟩ := bunk_val_above present2 absent cancelled
          goalPercentage hP2 hg0 ((ratio_ge_iff _ _ _ hP2).1 h2)
        rw [hval2, jsle_fin_fin]
        exact decide_eq_true (by exact_mod_cast hb2)
      · rw [useAttendance_bunkBuffer_below present2 absent cancelled
          goalPercentage h2, jsle_fin_fin]
        exact decide_eq_true le_rfl
  · by_cases h2 : (if 0 < present2 + absent then
        present2 / (present2 + absent) * 100 else 0) ≥ goalPercentage
    · rw [useAttendance_recovery_above present2 absent cancelled
        goalPercentage h2]
      exact useAttendance_recovery_nonneg present1 absent cancelled
        goalPercentage hg0 hg1
    · have h1 : ¬((if 0 < present1 + absent then
          present1 / (present1 + absent) * 100 else 0) ≥ goalPercentage) :=
        fun hcontra => h2 (le_trans hcontra hpct)
      have ht : 0 < present1 + absent := by
        by_contra hnt
        have ha0 : absent = 0 := by linarith [not_lt.1 hnt]
        apply h2
        rw [if_pos hP2, ha0, add_zero,
          div_self (ne_of_gt (by linarith : (0:ℚ) < present2))]
        linarith
      rw [if_pos ht] at h1
      rw [if_pos hP2] at h2
      have hb1 : present1 < goalPercentage / 100 * (present1 + absent) :=
        (ratio_lt_iff _ _ _ ht).1 (not_le.1 h1)
      have hb2 : present2 < goalPercentage / 100 * (present2 + absent) :=
        (ratio_lt_iff _ _ _ hP2).1 (not_le.1 h2)
      rcases lt_or_eq_of_le hg1 with hlt | h100
      · obtain ⟨hval1, hr1⟩ := recovery_val_below present1 absent cancelled
          goalPercentage ht hlt hb1
        obtain ⟨hval2, hr2⟩ := recovery_val_below present2 absent cancelled
          goalPercentage hP2 hlt hb2
        rw [hval1, hval2, jsle_fin_fin]
        refine decide_eq_true ?_
        have hden : 0 < 1 - goalPercentage / 100 := by linarith
        have hmono :
            ⌈(goalPercentage / 100 * (present2 + absent) - present2) /
              (1 - goalPercentage / 100)⌉ ≤
            ⌈(goalPercentage / 100 * (present1 + absent) - present1) /
              (1 - goalPercentage / 100)⌉ := by
          apply Int.ceil_le_ceil
          rw [div_le_div_iff_of_pos_right hden]
          nlinarith [mul_le_mul_of_nonneg_right hpp.le (sub_nonneg.2 hGle)]
        exact_mod_cast hmono
      · subst h100
        have hl1 : present1 < present1 + absent := by
          have he : (100:ℚ) / 100 * (present1 + absent) = present1 + absent :=
            by norm_num
          rwa [he] at hb1
        have hl2 : present2 < present2 + absent := by
          have he : (100:ℚ) / 100 * (present2 + absent) = present2 + absent :=
            by norm_num
          rwa [he] at hb2
        rw [recovery_val_goal100 present1 absent cancelled ht hl1,
          recovery_val_goal100 present2 absent cancelled hP2 hl2,
          jsle_posInf_posInf]

/-- C5 witness: raising `present` from 20 to 38 with `absent = 2`,
`goal = 75`. -/
theorem useAttendance_monotone_present_witness :
    (useAttendance 20 2 0 75).stats.percentage ≤
      (useAttendance 38 2 0 75).stats.percentage ∧
    JsNum.le (useAttendance 20 2 0 75).bunkBuffer
      (useAttendance 38 2 0 75).bunkBuffer = true ∧
    JsNum.le (useAttendance 38 2 0 75).recoveryRequired
      (useAttendance 20 2 0 75).recoveryRequired = true :=
  useAttendance_monotone_present 20 38 2 0 75 (by norm_num) (by norm_num)
    (by norm_num) (by norm_num) (by norm_num) (by norm_num)

/-- C3 witness: 10 present out of 30 can never reach a 100% goal
(`Infinity` sentinel); 10 out of 10 needs 0 recovery classes. -/
theorem recovery_goal100_sentinel_witness :
    (useAttendance 10 20 0 100).recoveryRequired = JsNum.posInf ∧
    (useAttendance 10 0 0 100).recoveryRequired = JsNum.fin 0 := by
  constructor
  · exact (recovery_goal100_sentinel 10 20 0 (by norm_num) (by norm_num)
      (by norm_num)).1 (by norm_num)
  · exact (recovery_goal100_sentinel 10 0 0 (by norm_num) (by norm_num)
      (by norm_num)).2 (by norm_num)

lemma useAttendance_isSafe_pct (p a c g : ℚ) :
    (useAttendance p a c g).isSafe =
      decide ((useAttendance p a c g).stats.percentage ≥ g + 5) := rfl

lemma useAttendance_isAboveGoal_pct (p a c g : ℚ) :
    (useAttendance p a c g).isAboveGoal =
      decide ((useAttendance p a c g).stats.percentage ≥ g) := rfl

/-- C7: zero-data case.  With no classes logged, every metric is the neutral
0 for any goal, and `useAttendance(0, 0, 0, 75)` gives the fully neutral
record. -/
theorem zero_data_defaults :
    ∀ goalPercentage cancelled : ℚ,
      (useAttendance 0 0 cancelled goalPercentage).stats.percentage = 0 ∧
      (useAttendance 0 0 cancelled goalPercentage).bunkBuffer = JsNum.fin 0 ∧
      (useAttendance 0 0 cancelled goalPercentage).recoveryRequired
        = JsNum.fin 0 ∧
      (useAttendance 0 0 0 75).stats.percentage = 0 ∧
      (useAttendance 0 0 0 75).bunkBuffer = JsNum.fin 0 ∧
      (useAttendance 0 0 0 75).recoveryRequired = JsNum.fin 0 ∧
      (useAttendance 0 0 0 75).isAboveGoal = false ∧
      (useAttendance 0 0 0 75).isSafe = false := by
  intro g c
  have hnt : ¬((0:ℚ) < 0 + 0) := by norm_num
  refine ⟨?_, useAttendance_bunkBuffer_noTotal 0 0 c g hnt,
    useAttendance_recovery_noTotal 0 0 c g hnt, ?_,
    useAttendance_bunkBuffer_noTotal 0 0 0 75 hnt,
    useAttendance_recovery_noTotal 0 0 0 75 hnt, ?_, ?_⟩
  · rw [useAttendance_percentage, if_neg hnt]
  · rw [useAttendance_percentage, if_neg hnt]
  · rw [useAttendance_isAboveGoal_pct, useAttendance_percentage, if_neg hnt]
    exact decide_eq_false (by norm_num)
  · rw [useAttendance_isSafe_pct, useAttendance_percentage, if_neg hnt]
    exact decide_eq_false (by norm_num)

/-- C8: cancelled noninterference.  Two calls differing only in `cancelled`
agree on every output except the echoed `stats.cancelled`. -/
theorem cancelled_noninterference :
    ∀ present absent goalPercentage cancelled1 cancelled2 : ℚ,
      (useAttendance present absent cancelled1 goalPercentage).stats.present =
        (useAttendance present absent cancelled2 goalPercentage).stats.present ∧
      (useAttendance present absent cancelled1 goalPercentage).stats.absent =
        (useAttendance present absent cancelled2 goalPercentage).stats.absent ∧
      (useAttendance present absent cancelled1 goalPercentage).stats.total =
        (useAttendance present absent cancelled2 goalPercentage).stats.total ∧
      (useAttendance present absent cancelled1 goalPercentage).stats.percentage =
        (useAttendance present absent cancelled2
          goalPercentage).stats.percentage ∧
      (useAttendance present absent cancelled1
          goalPercentage).stats.goalPercentage =
        (useAttendance present absent cancelled2
          goalPercentage).stats.goalPercentage ∧
      (useAttendance present absent cancelled1 goalPercentage).bunkBuffer =
        (useAttendance present absent cancelled2 goalPercentage).bunkBuffer ∧
      (useAttendance present absent cancelled1 goalPercentage).recoveryRequired =
        (useAttendance present absent cancelled2
          goalPercentage).recoveryRequired ∧
      (useAttendance present absent cancelled1 goalPercentage).isAboveGoal =
        (useAttendance present absent cancelled2 goalPercentage).isAboveGoal ∧
      (useAttendance present absent cancelled1 goalPercentage).isSafe =
        (useAttendance present absent cancelled2 goalPercentage).isSafe :=
  fun _ _ _ _ _ => ⟨rfl, rfl, rfl, rfl, rfl, rfl, rfl, rfl, rfl⟩

lemma status_safe_iff (q g : ℚ) :
    getAttendanceStatus q g = AttendanceStatus.safe ↔ q ≥ g + 5 := by
  rw [getAttendanceStatus]
  split_ifs with h1 h2
  · exact iff_of_true rfl h1
  · exact iff_of_false (by decide) h1
  · exact iff_of_false (by decide) h1

lemma status_warning_iff (q g : ℚ) :
    getAttendanceStatus q g = AttendanceStatus.warning ↔
      g - 5 ≤ q ∧ q < g + 5 := by
  rw [getAttendanceStatus]
  split_ifs with h1 h2
  · exact iff_of_false (by decide) (fun hc => absurd h1 (not_le.2 hc.2))
  · exact iff_of_true rfl ⟨by linarith [h2], not_le.1 h1⟩
  · exact iff_of_false (by decide) (fun hc => h2 (by linarith [hc.1]))

lemma status_danger_iff (q g : ℚ) :
    getAttendanceStatus q g = AttendanceStatus.danger ↔ q < g - 5 := by
  rw [getAttendanceStatus]
  split_ifs with h1 h2
  · exact iff_of_false (by decide) (fun hc => absurd h1 (not_le.2 (by linarith)))
  · exact iff_of_false (by decide) (fun hc => absurd h2 (not_le.2 hc))
  · exact iff_of_true rfl (not_le.1 h2)

/-- C9: threshold semantics.  `getAttendanceStatus` buckets are exactly
`safe ⟺ percentage ≥ goal + 5`, `warning ⟺ goal − 5 ≤ percentage < goal + 5`,
`danger ⟺ percentage < goal − 5`; the safe bucket coincides with the hook's
`isSafe` flag, and `isAboveGoal` is inclusive at equality. -/
theorem status_thresholds
    (percentage goalPercentage present absent cancelled : ℚ)
    (hpct : (useAttendance present absent cancelled
      goalPercentage).stats.percentage = goalPercentage) :
    (getAttendanceStatus percentage goalPercentage = AttendanceStatus.safe ↔
      percentage ≥ goalPercentage + 5) ∧
    (getAttendanceStatus percentage goalPercentage = AttendanceStatus.warning ↔
      goalPercentage - 5 ≤ percentage ∧ percentage < goalPercentage + 5) ∧
    (getAttendanceStatus percentage goalPercentage = AttendanceStatus.danger ↔
      percentage < goalPercentage - 5) ∧
    (∀ p a c g : ℚ,
      (getAttendanceStatus (useAttendance p a c g).stats.percentage g
        = AttendanceStatus.safe) ↔
      (useAttendance p a c g).isSafe = true) ∧
    (useAttendance present absent cancelled goalPercentage).isAboveGoal
      = true := by
  refine ⟨status_safe_iff percentage goalPercentage,
    status_warning_iff percentage goalPercentage,
    status_danger_iff percentage goalPercentage, ?_, ?_⟩
  · intro p a c g
    rw [useAttendance_isSafe_pct, decide_eq_true_eq]
    exact status_safe_iff _ _
  · rw [useAttendance_isAboveGoal_pct, hpct]
    exact decide_eq_true le_rfl

/-- C9 witness: thresholds at `percentage = 80`, `goal = 75`; the
safe-bucket/`isSafe` coincidence at `present = 38`, `absent = 2`, `goal = 75`
(a 95% state where both sides hold); and the inclusive boundary at
`present = 30`, `absent = 10` (exactly 75%). -/
theorem status_thresholds_witness :
    (getAttendanceStatus 80 75 = AttendanceStatus.safe ↔ (80:ℚ) ≥ 75 + 5) ∧
    (getAttendanceStatus 80 75 = AttendanceStatus.warning ↔
      (75:ℚ) - 5 ≤ 80 ∧ (80:ℚ) < 75 + 5) ∧
    (getAttendanceStatus 80 75 = AttendanceStatus.danger ↔
      (80:ℚ) < 75 - 5) ∧
    ((getAttendanceStatus (useAttendance 38 2 0 75).stats.percentage 75
      = AttendanceStatus.safe) ↔ (useAttendance 38 2 0 75).isSafe = true) ∧
    (useAttendance 38 2 0 75).isSafe = true ∧
    (useAttendance 30 10 0 75).isAboveGoal = true := by
  obtain ⟨h1, h2, h3, h4, h5⟩ := status_thresholds 80 75 30 10 0
    (by rw [useAttendance_percentage]; norm_num)
  refine ⟨h1, h2, h3, h4 38 2 0 75, ?_, h5⟩
  rw [useAttendance_isSafe_pct, decide_eq_true_eq, useAttendance_percentage]
  norm_num

/-- C10: mutual exclusivity.  A positive bunk buffer occurs only at or above
goal, a positive recovery requirement only below goal, so at most one of the
two is positive. -/
theorem metrics_mutually_exclusive
    (present absent cancelled goalPercentage : ℚ)
    (hp : 0 ≤ present) (ha : 0 ≤ absent) (hc : 0 ≤ cancelled)
    (hg0 : 0 < goalPercentage) (hg1 : goalPercentage ≤ 100) :
    ((useAttendance present absent cancelled goalPercentage).bunkBuffer.gtZero
        = true →
      (useAttendance present absent cancelled goalPercentage).isAboveGoal
        = true) ∧
    ((useAttendance present absent cancelled
        goalPercentage).recoveryRequired.gtZero = true →
      (useAttendance present absent cancelled goalPercentage).isAboveGoal
        = false) ∧
    ¬((useAttendance present absent cancelled goalPercentage).bunkBuffer.gtZero
        = true ∧
      (useAttendance present absent cancelled
        goalPercentage).recoveryRequired.gtZero = true) := by
  by_cases h : (if 0 < present + absent then
      present / (present + absent) * 100 else 0) ≥ goalPercentage
  · have hrz : (useAttendance present absent cancelled
        goalPercentage).recoveryRequired.gtZero = false := by
      rw [useAttendance_recovery_above present absent cancelled
        goalPercentage h, gtZero_fin]
      exact decide_eq_false (lt_irrefl 0)
    refine ⟨fun _ => ?_, fun hr => absurd hr ?_, fun hand => absurd hand.2 ?_⟩
    · rw [useAttendance_isAboveGoal]
      exact decide_eq_true h
    · rw [hrz]
      exact Bool.false_ne_true
    · rw [hrz]
      exact Bool.false_ne_true
  · have hbz : (useAttendance present absent cancelled
        goalPercentage).bunkBuffer.gtZero = false := by
      rw [useAttendance_bunkBuffer_below present absent cancelled
        goalPercentage h, gtZero_fin]
      exact decide_eq_false (lt_irrefl 0)
    refine ⟨fun hb => absurd hb ?_, fun _ => ?_, fun hand => absurd hand.1 ?_⟩
    · rw [hbz]
      exact Bool.false_ne_true
    · rw [useAttendance_isAboveGoal]
      exact decide_eq_false h
    · rw [hbz]
      exact Bool.false_ne_true

/-- C10 witness at `present = 38`, `absent = 2`, `goal = 75`. -/
theorem metrics_mutually_exclusive_witness :
    ((useAttendance 38 2 0 75).bunkBuffer.gtZero = true →
      (useAttendance 38 2 0 75).isAboveGoal = true) ∧
    ((useAttendance 38 2 0 75).recoveryRequired.gtZero = true →
      (useAttendance 38 2 0 75).isAboveGoal = false) ∧
    ¬((useAttendance 38 2 0 75).bunkBuffer.gtZero = true ∧
      (useAttendance 38 2 0 75).recoveryRequired.gtZero = true) :=
  metrics_mutually_exclusive 38 2 0 75 (by norm_num) (by norm_num)
    (by norm_num) (by norm_num) (by norm_num)
